import Mathlib

/-!
Shallow embedding of `legislation_mx.py`: the row parser, the reconciler of
the `query` command, the `fill_subject` enrichment pass, and the
`download_pdfs` asset pipeline, together with proofs about the claims the
specification makes of them.
-/

set_option maxRecDepth 4000

/-- The fixed portal origin onto which relative paths are rebased
(`"http://sil.gobernacion.gob.mx"` in the source). -/
def portalOrigin : String := "http://sil.gobernacion.gob.mx"

/-- `Info_link` of the source (pydantic model): a label plus an optional URL,
the URL being the empty string when there is no link. -/
structure Info_link where
  text : String
  url : String
deriving Repr, DecidableEq

/-- A calendar date as produced by `datetime.strptime(text, "%d/%m/%Y")`. -/
structure SDate where
  year : Nat
  month : Nat
  day : Nat
deriving Repr, DecidableEq

/-- Zero-padding to two digits, as in Python's `date.isoformat`. -/
def pad2 (n : Nat) : String :=
  if n < 10 then "0" ++ toString n else toString n

/-- Zero-padding to four digits, as in Python's `date.isoformat`. -/
def pad4 (n : Nat) : String :=
  if n < 10 then "000" ++ toString n
  else if n < 100 then "00" ++ toString n
  else if n < 1000 then "0" ++ toString n
  else toString n

/-- `str(d)` on a Python `date`: the ISO `YYYY-MM-DD` rendering. -/
def SDate.toIso (d : SDate) : String :=
  pad4 d.year ++ "-" ++ pad2 d.month ++ "-" ++ pad2 d.day

/-- The `subject_info` mapping stored by `fill_subject`: free-form key/value
pairs scraped from the detail page, plus the `links` key.  `links = none`
models a stored dict in which the `"links"` key is absent, which the store
schema permits (no migration support). -/
structure SubjectInfo where
  pairs : List (String × String)
  links : Option (List String)
deriving Repr, DecidableEq

/-- Python truthiness of the `subject_info` dict: a dict is truthy exactly
when it is non-empty. -/
def SubjectInfo.truthy (si : SubjectInfo) : Bool :=
  !(si.pairs.isEmpty && si.links.isNone)

/-- One persisted store entry: the serialized `Result` (dates rendered to ISO
text by `serialize_datetime`) plus `created`/`modified` stamps and the
optional enrichment fields added by later passes. -/
structure StoredRecord where
  num : Nat
  subject_type : String
  subject : Info_link
  subject_info : Option SubjectInfo
  classification : String
  presented_in : String
  presented_date : String
  presented_by : Info_link
  party : String
  legislation : String
  turn_to : Info_link
  status : Info_link
  topic : String
  pdf_url : Option String
  pdf_filename : Option String
  text_filename : Option String
  created : String
  modified : String
deriving Repr, DecidableEq

/-- The `Result` pydantic model as populated by the row parser of `query`
(the `subject_info` field is never set on this path and serializes to null). -/
structure Result where
  num : Nat
  subject_type : String
  subject : Info_link
  classification : String
  presented_in : String
  presented_date : SDate
  presented_by : Info_link
  party : String
  legislation : String
  turn_to : Info_link
  status : Info_link
  topic : String
deriving Repr, DecidableEq

/-- One `td` cell of a results-table row: its text nodes (`*::text`), the
`onclick` attribute of its first anchor if any (`a::attr(onclick)`), and
whether its `class` attribute starts with `tddatos` (a designated data cell). -/
structure Cell where
  texts : List String
  onclick : Option String
  tddatos : Bool
deriving Repr, DecidableEq

/-- Default cell (used only for out-of-range indexing, which the 12-cell
length check makes unreachable). -/
def defCell : Cell := ⟨[], none, false⟩

/-- `" ".join(texts)` at the character level. -/
def joinSpaces : List String → List Char
  | [] => []
  | [t] => t.data
  | t :: ts => t.data ++ ' ' :: joinSpaces ts

/-- Leading-whitespace strip, one side of Python's `str.strip()`. -/
def trimL : List Char → List Char
  | [] => []
  | c :: cs => if c.isWhitespace then trimL cs else c :: cs

/-- Python's `str.strip()`: drop whitespace from both ends. -/
def trimBoth (cs : List Char) : List Char :=
  (trimL (trimL cs).reverse).reverse

/-- Cell text extraction of the source: join the text nodes with single
spaces, drop every non-breaking space (`text.replace("\u00A0", "")` with a
one-character pattern), strip. -/
def cellText (c : Cell) : String :=
  String.mk (trimBoth ((joinSpaces c.texts).filter fun ch => ch != '\u00A0'))

/-! ### The `re_onclik_url` regex

`re.compile(r'(window.open|mUtil.winLeft)\("([^"]+)".*')` used with
`re.match`: anchored at the start, `.` matches any character except a
newline, the capture of interest is the first quoted argument. -/

/-- First alternative `window.open\("`, with the regex's unescaped `.`
matching any single non-newline character. -/
def stripAlt1 : List Char → Option (List Char)
  | 'w' :: 'i' :: 'n' :: 'd' :: 'o' :: 'w' :: c :: 'o' :: 'p' :: 'e' :: 'n' :: '(' :: '"' :: rest =>
    if c = '\n' then none else some rest
  | _ => none

/-- Second alternative `mUtil.winLeft\("`, again with `.` as a wildcard. -/
def stripAlt2 : List Char → Option (List Char)
  | 'm' :: 'U' :: 't' :: 'i' :: 'l' :: c :: 'w' :: 'i' :: 'n' :: 'L' :: 'e' :: 'f' :: 't' :: '(' :: '"' :: rest =>
    if c = '\n' then none else some rest
  | _ => none

/-- `([^"]+)"`: the characters up to the next double quote, which must exist;
returns the captured prefix and the remainder after the quote. -/
def takeUntilQuote : List Char → Option (List Char × List Char)
  | [] => none
  | c :: cs =>
    if c = '"' then some ([], cs)
    else
      match takeUntilQuote cs with
      | none => none
      | some (pre, rest) => some (c :: pre, rest)

/-- `re_onclik_url.match` on the character list: the quoted capture when the
regex matches, `none` otherwise.  The trailing `.*` of the pattern always
matches (a `re.match` needs no full match), so the remainder is ignored. -/
def matchOnclickL (s : List Char) : Option (List Char) :=
  match (stripAlt1 s).orElse (fun _ => stripAlt2 s) with
  | none => none
  | some r =>
    match takeUntilQuote r with
    | none => none
    | some (pre, _) => if pre = [] then none else some pre

/-- `re_onclik_url.match` on a string, returning group 2. -/
def matchOnclick (s : String) : Option String :=
  (matchOnclickL s.data).map fun cs => String.mk cs

/-- Link extraction for the link-bearing columns: no `onclick` attribute or
no regex match gives the empty URL, a match is rebased on the portal origin. -/
def extractLink : Option String → String
  | none => ""
  | some s =>
    match matchOnclick s with
    | none => ""
    | some path => portalOrigin ++ path

/-! ### `datetime.strptime(text, "%d/%m/%Y")`

CPython's `_strptime` compiles `%d` to `(3[01]|[12]\d|0[1-9]|[1-9])`, `%m`
to `(1[0-2]|0[1-9]|[1-9])` and `%Y` to `\d{4}`, requires the whole string to
be consumed, and then validates the day against the month via the `datetime`
constructor. -/

/-- Numeric value of a decimal digit. -/
def digitVal (c : Char) : Option Nat :=
  if c.isDigit then some (c.toNat - 48) else none

/-- Two-digit candidate for `%d`/`%m`: both characters are digits and the
value lies in `1..maxv`. -/
def twoDigitCand (maxv : Nat) : List Char → Option (Nat × List Char)
  | c1 :: c2 :: rest =>
    match digitVal c1, digitVal c2 with
    | some d1, some d2 =>
      let v := 10 * d1 + d2
      if 1 ≤ v ∧ v ≤ maxv then some (v, rest) else none
    | _, _ => none
  | _ => none

/-- One-digit candidate for `%d`/`%m`: a single digit `1..9`. -/
def oneDigitCand : List Char → Option (Nat × List Char)
  | c :: rest =>
    match digitVal c with
    | some d => if 1 ≤ d then some (d, rest) else none
    | none => none
  | [] => none

/-- The candidates in the regex's backtracking order: the two-digit
alternatives come first, the one-digit fallback last. -/
def numCands (maxv : Nat) (s : List Char) : List (Nat × List Char) :=
  (twoDigitCand maxv s).toList ++ (oneDigitCand s).toList

/-- The literal `/` separator of the format. -/
def expectSlash : List Char → Option (List Char)
  | '/' :: rest => some rest
  | _ => none

/-- `%Y`: exactly four digits. -/
def parseYear4 : List Char → Option (Nat × List Char)
  | c1 :: c2 :: c3 :: c4 :: rest =>
    match digitVal c1, digitVal c2, digitVal c3, digitVal c4 with
    | some d1, some d2, some d3, some d4 =>
      some (1000 * d1 + 100 * d2 + 10 * d3 + d4, rest)
    | _, _, _, _ => none
  | _ => none

/-- Gregorian leap year, as `datetime` validates days. -/
def isLeap (y : Nat) : Bool :=
  (y % 4 == 0 && y % 100 != 0) || y % 400 == 0

/-- Length of a month, as the `datetime` constructor checks. -/
def daysInMonth (y m : Nat) : Nat :=
  if m = 2 then (if isLeap y then 29 else 28)
  else if m = 4 ∨ m = 6 ∨ m = 9 ∨ m = 11 then 30
  else 31

/-- `datetime.strptime(s, "%d/%m/%Y")`: `some` of the parsed date when the
string matches the format in full and names a valid calendar date, `none`
when the call would raise `ValueError`. -/
def parseDDMMYYYY (s : String) : Option SDate :=
  ((numCands 31 s.data).filterMap fun dc =>
    match expectSlash dc.2 with
    | none => none
    | some r2 =>
      ((numCands 12 r2).filterMap fun mc =>
        match expectSlash mc.2 with
        | none => none
        | some r4 =>
          match parseYear4 r4 with
          | none => none
          | some (y, r5) =>
            if r5.isEmpty ∧ 1 ≤ y ∧ dc.1 ≤ daysInMonth y mc.1 then
              some (SDate.mk y mc.1 dc.1)
            else none).head?).head?

/-! ### The row parser of `query` -/

/-- The pydantic coercion of the ordinal cell's text to the `int` field
`num` (external collaborator, modelled as plain decimal digits). -/
def parseNum (s : String) : Option Nat :=
  if !s.data.isEmpty && s.data.all (fun c => c.isDigit) then
    some (s.data.foldl (fun a c => 10 * a + (c.toNat - 48)) 0)
  else none

/-- A link-bearing column becomes an `Info_link` from the cell text and the
`onclick` extraction. -/
def linkText (c : Cell) : Info_link :=
  { text := cellText c, url := extractLink c.onclick }

/-- Errors the row parser can raise: the uncaught `ValueError` of the
column-5 date parse, or the pydantic validation error of `Result(**info)`. -/
inductive RowError where
  | dateParse (txt : String)
  | validation
deriving Repr, DecidableEq

/-- Parsing the twelve designated cells, in the source's column order: the
date parse of column 5 raises first (inside the loop), the pydantic
validation of the built dict raises after the loop. -/
def parseRow12 (cs : List Cell) : Except RowError (Option Result) :=
  match parseDDMMYYYY (cellText (cs.getD 5 defCell)) with
  | none => .error (.dateParse (cellText (cs.getD 5 defCell)))
  | some d =>
    match parseNum (cellText (cs.getD 0 defCell)) with
    | none => .error .validation
    | some n =>
      .ok (some
        { num := n
          subject_type := cellText (cs.getD 1 defCell)
          subject := linkText (cs.getD 2 defCell)
          classification := cellText (cs.getD 3 defCell)
          presented_in := cellText (cs.getD 4 defCell)
          presented_date := d
          presented_by := linkText (cs.getD 6 defCell)
          party := cellText (cs.getD 7 defCell)
          legislation := cellText (cs.getD 8 defCell)
          turn_to := linkText (cs.getD 9 defCell)
          status := linkText (cs.getD 10 defCell)
          topic := cellText (cs.getD 11 defCell) })

/-- The row parser: select the cells whose class starts with `tddatos`; a
row without exactly 12 of them is silently skipped (`continue`), otherwise
the twelve cells are parsed. -/
def parseRow (row : List Cell) : Except RowError (Option Result) :=
  if (row.filter fun c => c.tddatos).length = 12 then
    parseRow12 (row.filter fun c => c.tddatos)
  else .ok none

/-! ### The reconciler of `query` -/

/-- The natural key of a persisted entry: the triple
(`subject.text`, `presented_date`, `presented_by.text`). -/
def naturalKey (e : StoredRecord) : String × String × String :=
  (e.subject.text, e.presented_date, e.presented_by.text)

/-- The natural key a parsed `Result` is looked up by: the stored date field
is compared against `str(result.presented_date)`, the ISO rendering. -/
def resultKey (r : Result) : String × String × String :=
  (r.subject.text, r.presented_date.toIso, r.presented_by.text)

/-- The `db.search` predicate of `query`: the three-way conjunction on
`subject.text`, `presented_date` and `presented_by.text`. -/
def recMatches (r : Result) (e : StoredRecord) : Bool :=
  e.subject.text == r.subject.text &&
    e.presented_date == r.presented_date.toIso &&
    e.presented_by.text == r.presented_by.text

/-- The `db.update({"status": ..., "modified": ...}, key-predicate)` of the
update branch: every matching entry gets the fresh status and stamp. -/
def updateStatus (r : Result) (now : String) (e : StoredRecord) : StoredRecord :=
  if recMatches r e then { e with status := r.status, modified := now } else e

/-- Serialization of a fresh `Result` for `db.insert`: dates become ISO text
(`serialize_datetime`), `subject_info` is null, the provenance fields are
absent, and both stamps are the current time. -/
def serializeResult (r : Result) (now : String) : StoredRecord :=
  { num := r.num
    subject_type := r.subject_type
    subject := r.subject
    subject_info := none
    classification := r.classification
    presented_in := r.presented_in
    presented_date := r.presented_date.toIso
    presented_by := r.presented_by
    party := r.party
    legislation := r.legislation
    turn_to := r.turn_to
    status := r.status
    topic := r.topic
    pdf_url := none
    pdf_filename := none
    text_filename := none
    created := now
    modified := now }

/-- The mutable state of one `query` run: the store plus the two counters
reported at the end. -/
structure QueryState where
  store : List StoredRecord
  inserted : Nat
  updated : Nat
deriving Repr, DecidableEq

/-- One reconciliation step of `query` for a parsed `Result`: search by the
natural key; a non-empty result takes the update branch, otherwise the insert
branch; in both branches the write and the counter increment sit inside the
`save_into_db` guard. -/
def reconcile (save : Bool) (now : String) (st : QueryState) (r : Result) : QueryState :=
  let records := st.store.filter fun e => recMatches r e
  if records.length > 0 then
    if save then
      { st with store := st.store.map (updateStatus r now), updated := st.updated + 1 }
    else st
  else
    if save then
      { st with store := st.store ++ [serializeResult r now], inserted := st.inserted + 1 }
    else st

/-- Processing one table row inside the page loop: a row without exactly 12
designated cells is skipped, a parse error propagates, a parsed record is
reconciled. -/
def processRow (save : Bool) (now : String) (st : QueryState) (row : List Cell) :
    Except RowError QueryState :=
  match parseRow row with
  | .error e => .error e
  | .ok none => .ok st
  | .ok (some r) => .ok (reconcile save now st r)

/-- The row loop of the whole run: rows are reconciled one at a time and an
error aborts everything after it (no handler anywhere in `query` or `main`). -/
def processRows (save : Bool) (now : String) (st : QueryState) :
    List (List Cell) → Except RowError QueryState
  | [] => .ok st
  | row :: rest =>
    match processRow save now st row with
    | .error e => .error e
    | .ok st2 => processRows save now st2 rest

/-! ### `fill_subject` -/

/-- The key predicate `fill_subject` updates by: the iterated entry's own
natural-key triple (`str(result.presented_date)` round-trips to the stored
ISO string). -/
def entryKeyMatches (src x : StoredRecord) : Bool :=
  x.subject.text == src.subject.text &&
    x.presented_date == src.presented_date &&
    x.presented_by.text == src.presented_by.text

/-- One loop iteration of `fill_subject` for the entry `src`: the scraped
`subject_info` and a fresh `modified` stamp are written to every entry
matching `src`'s natural key.  The command accepts a `save_into_db` switch,
but the loop body never consults it — the parameter is carried to make that
explicit. -/
def fillSubjectStep (save : Bool) (now : String) (info : SubjectInfo)
    (src : StoredRecord) (store : List StoredRecord) : List StoredRecord :=
  store.map fun x =>
    if entryKeyMatches src x then { x with subject_info := some info, modified := now }
    else x

/-! ### `download_pdfs` -/

/-- `os.path.join` for the relative names this code builds: an empty
directory leaves the name alone, a trailing slash is not doubled. -/
def pathJoin (dir name : String) : String :=
  if dir = "" then name
  else if dir.data.getLast? = some '/' then dir ++ name
  else dir ++ "/" ++ name

/-- The deterministic base filename:
`f"{presented_date}-{subject.text[:30]}-{presented_by.text}"`. -/
def assetBaseName (e : StoredRecord) : String :=
  e.presented_date ++ "-" ++ String.mk (e.subject.text.data.take 30) ++ "-" ++
    e.presented_by.text

/-- Destination of the downloaded PDF. -/
def pdfPath (dir : String) (e : StoredRecord) : String :=
  pathJoin dir (assetBaseName e ++ ".pdf")

/-- Destination of the OCR text. -/
def textPath (dir : String) (e : StoredRecord) : String :=
  pathJoin dir (assetBaseName e ++ ".txt")

/-- Observable effects of one `download_pdfs` iteration. -/
inductive DlEvent where
  | netGet (url : String)
  | writePdf (path : String)
  | ocr (pdf txt : String)
  | dbUpdate (docId : Nat)
deriving Repr, DecidableEq

/-- Number of network requests in a trace. -/
def countNet (evs : List DlEvent) : Nat :=
  evs.countP fun e => match e with | .netGet _ => true | _ => false

/-- Number of OCR/image-conversion runs in a trace. -/
def countOcr (evs : List DlEvent) : Nat :=
  evs.countP fun e => match e with | .ocr _ _ => true | _ => false

/-- Number of PDF file writes in a trace. -/
def countWrite (evs : List DlEvent) : Nat :=
  evs.countP fun e => match e with | .writePdf _ => true | _ => false

/-- Python `KeyError` and friends, for the paths where the code subscripts a
dict without checking the key. -/
inductive PyError where
  | keyError (key : String)
deriving Repr, DecidableEq

/-- Update of the entry at position `j` (the TinyDB `doc_ids=[r.doc_id]`
update of `download_pdfs`, with doc ids modelled as list positions). -/
def updateAt (j : Nat) (f : StoredRecord → StoredRecord) :
    List StoredRecord → List StoredRecord
  | [] => []
  | x :: xs =>
    match j with
    | 0 => f x :: xs
    | j + 1 => x :: updateAt j f xs

/-- The provenance fields `download_pdfs` writes back. -/
def setProvenance (url pdf txt now : String) (x : StoredRecord) : StoredRecord :=
  { x with pdf_url := some url, pdf_filename := some pdf,
           text_filename := some txt, modified := now }

/-- One iteration of `download_pdfs` over the entry `e` at position `i`:
skip when `subject_info` is falsy or its `links` list is empty; subscripting
a truthy dict without a `"links"` key raises `KeyError`; otherwise issue the
`requests.get` first, then write the PDF only if absent, OCR only if the text
file is absent, and update the entry's provenance fields unconditionally.
Returns the event trace, the resulting filesystem and the resulting store. -/
def downloadStep (dir : String) (fs : List String) (now : String)
    (store : List StoredRecord) (i : Nat) (e : StoredRecord) :
    Except PyError (List DlEvent × List String × List StoredRecord) :=
  match e.subject_info with
  | none => .ok ([], fs, store)
  | some si =>
    if si.truthy then
      match si.links with
      | none => .error (.keyError "links")
      | some links =>
        if links.length > 0 then
          let url := links.headD ""
          let pdfFile := pdfPath dir e
          let textFile := textPath dir e
          let (ev2, fs1) :=
            if pdfFile ∈ fs then ([], fs)
            else ([DlEvent.writePdf pdfFile], pdfFile :: fs)
          let (ev3, fs2) :=
            if textFile ∈ fs1 then ([], fs1)
            else ([DlEvent.ocr pdfFile textFile], textFile :: fs1)
          .ok (DlEvent.netGet url :: ev2 ++ ev3 ++ [DlEvent.dbUpdate i], fs2,
               updateAt i (setProvenance url pdfFile textFile now) store)
        else .ok ([], fs, store)
    else .ok ([], fs, store)

/-! ### `list_records` -/

/-- The two info marks printed per entry by `list_records`: the first tests
`subject_info` truthily, the second additionally subscripts
`subject_info['links']` — a `KeyError` when a truthy dict lacks the key. -/
def listRecordsStep (e : StoredRecord) : Except PyError (String × String) :=
  let truthySI := match e.subject_info with
    | none => false
    | some si => si.truthy
  let mark1 := if truthySI then "✓" else "No info for subject"
  if truthySI then
    match e.subject_info with
    | some si =>
      match si.links with
      | none => .error (.keyError "links")
      | some links =>
        .ok (mark1, if links.length > 0 then "✓" else "No info for subject")
    | none => .ok (mark1, "No info for subject")
  else .ok (mark1, "No info for subject")

/-- Natural-key uniqueness of a store: no two persisted entries share the
triple. -/
def NatKeyUnique (store : List StoredRecord) : Prop :=
  store.Pairwise fun a b => naturalKey a ≠ naturalKey b

/-! ### Concrete fixtures shared by witnesses -/

/-- A concrete parsed record. -/
def rex : Result :=
  { num := 1
    subject_type := "Iniciativa"
    subject := ⟨"Ley de IA", "http://sil.gobernacion.gob.mx/portal/x.php"⟩
    classification := "Ordinaria"
    presented_in := "Pleno"
    presented_date := ⟨2021, 9, 1⟩
    presented_by := ⟨"Diputado X", ""⟩
    party := "MORENA"
    legislation := "LXIV"
    turn_to := ⟨"Comisión Y", ""⟩
    status := ⟨"Pendiente", ""⟩
    topic := "Tecnología" }

/-- The store entry `rex` serializes to on first insert. -/
def sex : StoredRecord := serializeResult rex "2024-01-01 00:00:00"

/-! ### C1 — dry-run counters -/

/-- C1 fails on the code as claimed: on an empty store, the dry run leaves the
insert counter at zero although the same record with saving enabled increments
it — both `inserted += 1` and `updated += 1` sit inside the `save_into_db`
guard, so the end-of-run counts do not report what would have happened. -/
theorem C1_counterexample :
    (reconcile false "2024-01-01 00:00:00" ⟨[], 0, 0⟩ rex).inserted = 0 ∧
    (reconcile false "2024-01-01 00:00:00" ⟨[], 0, 0⟩ rex).updated = 0 ∧
    (reconcile true "2024-01-01 00:00:00" ⟨[], 0, 0⟩ rex).inserted = 1 :=
  ⟨rfl, rfl, rfl⟩

/-- C1 (amended): when the save-into-store switch is disabled the reconciler
performs the lookup and decision but writes nothing and increments nothing —
the whole reconciler state, store and both counters, is left unchanged, so the
end-of-run counts report zero rather than what would have happened. -/
theorem C1_dry_run_state_unchanged (now : String) (st : QueryState) (r : Result) :
    reconcile false now st r = st := by
  unfold reconcile
  by_cases h : ((st.store.filter fun e => recMatches r e).length > 0) <;> simp [h]

/-! ### C4 — row-shape mismatch is a silent skip -/

/-- C4: a table row without exactly 12 designated data cells produces no
record, raises no error and leaves the reconciler state — store and counters —
untouched: the row is silently skipped. -/
theorem C4_row_shape_skip (save : Bool) (now : String) (st : QueryState)
    (row : List Cell) (h : (row.filter fun c => c.tddatos).length ≠ 12) :
    processRow save now st row = .ok st := by
  unfold processRow parseRow
  simp [h]

/-- An 11-cell row. -/
def rowEleven : List Cell := List.replicate 11 ⟨["x"], none, true⟩

/-- Witness for C4 at a concrete 11-cell row. -/
theorem C4_row_shape_skip_witness :
    processRow true "2024-01-01 00:00:00" ⟨[], 0, 0⟩ rowEleven = .ok ⟨[], 0, 0⟩ :=
  C4_row_shape_skip true "2024-01-01 00:00:00" ⟨[], 0, 0⟩ rowEleven (by decide)

/-! ### C8 — deterministic asset paths -/

/-- `os.path.join` distributes over a suffix of the (relative) filename. -/
theorem pathJoin_append (dir n ext : String) :
    pathJoin dir (n ++ ext) = pathJoin dir n ++ ext := by
  unfold pathJoin
  by_cases h1 : dir = "" <;> by_cases h2 : dir.data.getLast? = some '/' <;>
    simp [h1, h2, String.append_assoc]

/-- C8: the asset pipeline's destination paths are a deterministic function of
`presented_date`, the first 30 characters of `subject.text`,
`presented_by.text` and the download directory alone — two entries agreeing on
those inputs get identical paths — and the two paths are the `.pdf` and `.txt`
extensions of one shared base name. -/
theorem C8_asset_paths_deterministic (dir : String) (e1 e2 : StoredRecord)
    (h1 : e1.presented_date = e2.presented_date)
    (h2 : e1.subject.text.data.take 30 = e2.subject.text.data.take 30)
    (h3 : e1.presented_by.text = e2.presented_by.text) :
    pdfPath dir e1 = pdfPath dir e2 ∧ textPath dir e1 = textPath dir e2 ∧
    pdfPath dir e1 = pathJoin dir (assetBaseName e1) ++ ".pdf" ∧
    textPath dir e1 = pathJoin dir (assetBaseName e1) ++ ".txt" := by
  have hb : assetBaseName e1 = assetBaseName e2 := by
    unfold assetBaseName
    rw [h1, h2, h3]
  refine ⟨?_, ?_, pathJoin_append dir (assetBaseName e1) ".pdf",
         pathJoin_append dir (assetBaseName e1) ".txt"⟩
  · unfold pdfPath
    rw [hb]
  · unfold textPath
    rw [hb]

/-- The entry `sex` after enrichment and provenance updates: same identity
fields, different content fields. -/
def sexEnriched : StoredRecord :=
  { sex with subject_info := some ⟨[("Tema", "IA")], some ["/portal/doc.pdf"]⟩,
             pdf_url := some "http://sil.gobernacion.gob.mx/portal/doc.pdf",
             status := ⟨"Aprobada", ""⟩,
             modified := "2025-01-01 00:00:00" }

/-- Witness for C8: the enriched entry — different URL, status, `subject_info`
and stamps — still maps to the same on-disk paths as the freshly inserted one. -/
theorem C8_asset_paths_deterministic_witness :
    pdfPath "pdfs" sex = pdfPath "pdfs" sexEnriched ∧
    textPath "pdfs" sex = textPath "pdfs" sexEnriched ∧
    pdfPath "pdfs" sex = pathJoin "pdfs" (assetBaseName sex) ++ ".pdf" ∧
    textPath "pdfs" sex = pathJoin "pdfs" (assetBaseName sex) ++ ".txt" :=
  C8_asset_paths_deterministic "pdfs" sex sexEnriched rfl rfl rfl

/-! ### C10 — `fill_subject` ignores its save switch -/

/-- C10: the `fill_subject` loop body never consults the `save_into_db`
switch — for both switch values the produced store is the same, and the
iterated entry is persisted with the scraped `subject_info` and the fresh
`modified` stamp. -/
theorem C10_fill_subject_write_unconditional (save : Bool) (now : String)
    (info : SubjectInfo) (e : StoredRecord) (store : List StoredRecord)
    (h : e ∈ store) :
    fillSubjectStep save now info e store = fillSubjectStep true now info e store ∧
    { e with subject_info := some info, modified := now } ∈
      fillSubjectStep save now info e store := by
  refine ⟨rfl, ?_⟩
  unfold fillSubjectStep
  have hm : entryKeyMatches e e = true := by simp [entryKeyMatches]
  have hmem := List.mem_map_of_mem
    (fun x => if entryKeyMatches e x then { x with subject_info := some info, modified := now } else x) h
  simpa [hm] using hmem

/-- Witness for C10 at a concrete entry, with the switch disabled. -/
theorem C10_fill_subject_write_unconditional_witness :
    fillSubjectStep false "2025-01-01 00:00:00" ⟨[("Tema", "IA")], some []⟩ sex [sex] =
      fillSubjectStep true "2025-01-01 00:00:00" ⟨[("Tema", "IA")], some []⟩ sex [sex] ∧
    { sex with subject_info := some ⟨[("Tema", "IA")], some []⟩,
               modified := "2025-01-01 00:00:00" } ∈
      fillSubjectStep false "2025-01-01 00:00:00" ⟨[("Tema", "IA")], some []⟩ sex [sex] :=
  C10_fill_subject_write_unconditional false "2025-01-01 00:00:00"
    ⟨[("Tema", "IA")], some []⟩ sex [sex] (by decide)

/-! ### C6 — onclick link extraction -/

/-- Literal prefix test on character lists. -/
def beginsWith : List Char → List Char → Bool
  | [], _ => true
  | _ :: _, [] => false
  | a :: ps, b :: ss => a == b && beginsWith ps ss

/-- Whether a handler literally begins with one of the two JavaScript calls
the specification names: `window.open("` or `mUtil.winLeft("`. -/
def literalCallPattern (s : String) : Bool :=
  beginsWith "window.open(\"".data s.data || beginsWith "mUtil.winLeft(\"".data s.data

/-- A URL the row parser can produce: empty or rooted at the portal origin. -/
def urlShape (u : String) : Prop :=
  u = "" ∨ ∃ p, u = portalOrigin ++ p

/-- C6 fails on the code as claimed: the regex spells its call names with
unescaped dots, so the handler `windowXopen("/doc.pdf")` — which literally
matches neither named pattern — still yields a non-empty, origin-rebased URL
instead of the empty string. -/
theorem C6_counterexample :
    literalCallPattern "windowXopen(\"/doc.pdf\")" = false ∧
    extractLink (some "windowXopen(\"/doc.pdf\")") =
      "http://sil.gobernacion.gob.mx/doc.pdf" := by
  constructor <;> rfl

/-- `([^"]+)"` on a quote-free prefix followed by the closing quote. -/
theorem takeUntilQuote_append (xs rest : List Char) (h : ∀ c ∈ xs, c ≠ '"') :
    takeUntilQuote (xs ++ '"' :: rest) = some (xs, rest) := by
  induction xs with
  | nil => simp [takeUntilQuote]
  | cons a as ih =>
    have ha : a ≠ '"' := h a (by simp)
    have ih' := ih fun c hc => h c (by simp [hc])
    simp [takeUntilQuote, ha, ih']

/-- The regex capture on a literal `window.open("ARG"...` handler. -/
theorem matchOnclick_windowOpen (arg rest : String) (h1 : arg.data ≠ [])
    (h2 : ∀ c ∈ arg.data, c ≠ '"') :
    matchOnclick ("window.open(\"" ++ arg ++ "\"" ++ rest) = some arg := by
  unfold matchOnclick matchOnclickL
  have hdata : ("window.open(\"" ++ arg ++ "\"" ++ rest).data =
      'w' :: 'i' :: 'n' :: 'd' :: 'o' :: 'w' :: '.' :: 'o' :: 'p' :: 'e' :: 'n' ::
        '(' :: '"' :: (arg.data ++ '"' :: rest.data) := by
    simp [String.data_append]
  rw [hdata]
  have hs1 : stripAlt1
      ('w' :: 'i' :: 'n' :: 'd' :: 'o' :: 'w' :: '.' :: 'o' :: 'p' :: 'e' :: 'n' ::
        '(' :: '"' :: (arg.data ++ '"' :: rest.data)) =
      some (arg.data ++ '"' :: rest.data) := rfl
  rw [hs1]
  simp [Option.orElse, takeUntilQuote_append arg.data rest.data h2, h1]

/-- The regex capture on a literal `mUtil.winLeft("ARG"...` handler. -/
theorem matchOnclick_winLeft (arg rest : String) (h1 : arg.data ≠ [])
    (h2 : ∀ c ∈ arg.data, c ≠ '"') :
    matchOnclick ("mUtil.winLeft(\"" ++ arg ++ "\"" ++ rest) = some arg := by
  unfold matchOnclick matchOnclickL
  have hdata : ("mUtil.winLeft(\"" ++ arg ++ "\"" ++ rest).data =
      'm' :: 'U' :: 't' :: 'i' :: 'l' :: '.' :: 'w' :: 'i' :: 'n' :: 'L' :: 'e' ::
        'f' :: 't' :: '(' :: '"' :: (arg.data ++ '"' :: rest.data) := by
    simp [String.data_append]
  rw [hdata]
  have hs1 : stripAlt1
      ('m' :: 'U' :: 't' :: 'i' :: 'l' :: '.' :: 'w' :: 'i' :: 'n' :: 'L' :: 'e' ::
        'f' :: 't' :: '(' :: '"' :: (arg.data ++ '"' :: rest.data)) = none := rfl
  have hs2 : stripAlt2
      ('m' :: 'U' :: 't' :: 'i' :: 'l' :: '.' :: 'w' :: 'i' :: 'n' :: 'L' :: 'e' ::
        'f' :: 't' :: '(' :: '"' :: (arg.data ++ '"' :: rest.data)) =
      some (arg.data ++ '"' :: rest.data) := rfl
  rw [hs1, hs2]
  simp [Option.orElse, takeUntilQuote_append arg.data rest.data h2, h1]

/-- Every URL `extractLink` can produce is empty or origin-rooted. -/
theorem extractLink_shape (o : Option String) : urlShape (extractLink o) := by
  unfold urlShape
  match o with
  | none => exact Or.inl rfl
  | some s =>
    cases h : matchOnclick s with
    | none => exact Or.inl (by simp [extractLink, h])
    | some p => exact Or.inr ⟨p, by simp [extractLink, h]⟩

/-- C6 (amended): a handler that is literally one of the two named calls with
a non-empty, quote-free first argument yields the origin-rebased URL; a
missing handler, or one the (dot-as-wildcard) regex rejects, yields the empty
URL; and every `Info_link` URL of a parsed record is empty or rooted at the
fixed origin.  The regex's unescaped dots accept a wildcard character where
the claim reads a literal dot, which is the sole divergence. -/
theorem C6_link_urls :
    (∀ arg rest : String, arg.data ≠ [] → (∀ c ∈ arg.data, c ≠ '"') →
      extractLink (some ("window.open(\"" ++ arg ++ "\"" ++ rest)) = portalOrigin ++ arg ∧
      extractLink (some ("mUtil.winLeft(\"" ++ arg ++ "\"" ++ rest)) = portalOrigin ++ arg) ∧
    extractLink none = "" ∧
    (∀ s, matchOnclick s = none → extractLink (some s) = "") ∧
    (∀ (row : List Cell) (r : Result), parseRow row = .ok (some r) →
      urlShape r.subject.url ∧ urlShape r.presented_by.url ∧
      urlShape r.turn_to.url ∧ urlShape r.status.url) := by
  refine ⟨?_, rfl, ?_, ?_⟩
  · intro arg rest h1 h2
    exact ⟨by simp [extractLink, matchOnclick_windowOpen arg rest h1 h2],
           by simp [extractLink, matchOnclick_winLeft arg rest h1 h2]⟩
  · intro s h
    simp [extractLink, h]
  · intro row r h
    unfold parseRow at h
    split at h
    · unfold parseRow12 at h
      split at h
      · exact absurd h (by simp)
      · split at h
        · exact absurd h (by simp)
        · simp only [Except.ok.injEq, Option.some.injEq] at h
          subst h
          exact ⟨extractLink_shape _, extractLink_shape _, extractLink_shape _,
                 extractLink_shape _⟩
    · exact absurd h (by simp)

/-- Witness for C6: both named call shapes at a concrete argument, and the
URL shapes of a concretely parsed row. -/
theorem C6_link_urls_witness :
    extractLink (some ("window.open(\"" ++ "/portal/x.php" ++ "\"" ++ ",\"w\")")) =
      portalOrigin ++ "/portal/x.php" ∧
    extractLink (some ("mUtil.winLeft(\"" ++ "/p/d.php?id=1" ++ "\"" ++ ")")) =
      portalOrigin ++ "/p/d.php?id=1" :=
  ⟨(C6_link_urls.1 "/portal/x.php" ",\"w\")" (by decide) (by decide)).1,
   (C6_link_urls.1 "/p/d.php?id=1" ")" (by decide) (by decide)).2⟩

/-! ### C5 — the column-5 date parse is fatal -/

/-- C5: for a row with exactly 12 designated cells, the text of column 5 is
parsed with the fixed `DD/MM/YYYY` format; exactly when that text does not
match, the row parser raises the date-parse error, no record is produced, and
the error propagates through the row loop uncaught — every later row is
abandoned; when the text matches, no date-parse error is raised and any
produced record carries the parsed date. -/
theorem C5_date_parse_fatal (save : Bool) (now : String) (st : QueryState)
    (row : List Cell) (h : (row.filter fun c => c.tddatos).length = 12) :
    (parseDDMMYYYY (cellText ((row.filter fun c => c.tddatos).getD 5 defCell)) = none →
      parseRow row =
        .error (.dateParse (cellText ((row.filter fun c => c.tddatos).getD 5 defCell))) ∧
      ∀ rest, processRows save now st (row :: rest) =
        .error (.dateParse (cellText ((row.filter fun c => c.tddatos).getD 5 defCell)))) ∧
    (∀ d, parseDDMMYYYY (cellText ((row.filter fun c => c.tddatos).getD 5 defCell)) = some d →
      (∀ t, parseRow row ≠ .error (.dateParse t)) ∧
      ∀ r, parseRow row = .ok (some r) → r.presented_date = d) := by
  constructor
  · intro hd
    have hp : parseRow row =
        .error (.dateParse (cellText ((row.filter fun c => c.tddatos).getD 5 defCell))) := by
      unfold parseRow
      rw [if_pos h]
      unfold parseRow12
      rw [hd]
    refine ⟨hp, fun rest => ?_⟩
    unfold processRows processRow
    rw [hp]
  · intro d hd
    cases hn : parseNum (cellText ((row.filter fun c => c.tddatos).getD 0 defCell)) with
    | none =>
      have hp : parseRow row = .error .validation := by
        unfold parseRow
        rw [if_pos h]
        unfold parseRow12
        rw [hd, hn]
      exact ⟨fun t => by simp [hp], fun r hr => by simp [hp] at hr⟩
    | some n =>
      have hp : parseRow row = .ok (some
          { num := n
            subject_type := cellText ((row.filter fun c => c.tddatos).getD 1 defCell)
            subject := linkText ((row.filter fun c => c.tddatos).getD 2 defCell)
            classification := cellText ((row.filter fun c => c.tddatos).getD 3 defCell)
            presented_in := cellText ((row.filter fun c => c.tddatos).getD 4 defCell)
            presented_date := d
            presented_by := linkText ((row.filter fun c => c.tddatos).getD 6 defCell)
            party := cellText ((row.filter fun c => c.tddatos).getD 7 defCell)
            legislation := cellText ((row.filter fun c => c.tddatos).getD 8 defCell)
            turn_to := linkText ((row.filter fun c => c.tddatos).getD 9 defCell)
            status := linkText ((row.filter fun c => c.tddatos).getD 10 defCell)
            topic := cellText ((row.filter fun c => c.tddatos).getD 11 defCell) }) := by
        unfold parseRow
        rw [if_pos h]
        unfold parseRow12
        rw [hd, hn]
      refine ⟨fun t => by simp [hp], fun r hr => ?_⟩
      rw [hp] at hr
      simp only [Except.ok.injEq, Option.some.injEq] at hr
      subst hr
      rfl

/-- A full data cell with one text node and no link. -/
def mkCell (t : String) : Cell := ⟨[t], none, true⟩

/-- A 12-cell row whose column 5 is not a `DD/MM/YYYY` date. -/
def rowBadDate : List Cell :=
  [mkCell "1", mkCell "Iniciativa", mkCell "Ley de IA", mkCell "Ordinaria",
   mkCell "Pleno", mkCell "mañana", mkCell "Diputado X", mkCell "MORENA",
   mkCell "LXIV", mkCell "Comisión Y", mkCell "Pendiente", mkCell "Tecnología"]

/-- Witness for C5: the malformed date of a concrete row aborts the whole row
loop with the uncaught date-parse error, later rows unprocessed. -/
theorem C5_date_parse_fatal_witness :
    processRows true "2024-01-01 00:00:00" ⟨[], 0, 0⟩ [rowBadDate, rowEleven] =
      .error (.dateParse "mañana") := by
  have hc : cellText ((rowBadDate.filter fun c => c.tddatos).getD 5 defCell) = "mañana" := by
    decide
  have happ :=
    ((C5_date_parse_fatal true "2024-01-01 00:00:00" ⟨[], 0, 0⟩ rowBadDate
        (by decide)).1 (by decide)).2 [rowEleven]
  rw [hc] at happ
  exact happ

/-! ### C2 — natural-key uniqueness is preserved -/

/-- The search predicate agrees with equality of natural keys. -/
theorem recMatches_iff (r : Result) (e : StoredRecord) :
    recMatches r e = true ↔ naturalKey e = resultKey r := by
  unfold recMatches naturalKey resultKey
  simp [Prod.ext_iff, Bool.and_eq_true, beq_iff_eq, and_assoc]

/-- The status update touches neither key field. -/
theorem updateStatus_key (r : Result) (now : String) (e : StoredRecord) :
    naturalKey (updateStatus r now e) = naturalKey e := by
  unfold updateStatus
  split <;> rfl

/-- The status update leaves the search predicate's verdict unchanged. -/
theorem recMatches_updateStatus (r r' : Result) (now : String) (e : StoredRecord) :
    recMatches r (updateStatus r' now e) = recMatches r e := by
  unfold updateStatus recMatches
  split <;> rfl

/-- A freshly serialized record carries exactly the key it was searched by. -/
theorem serializeResult_key (r : Result) (now : String) :
    naturalKey (serializeResult r now) = resultKey r := rfl

/-- A key-preserving rewrite of every entry preserves key uniqueness. -/
theorem natKeyUnique_map (f : StoredRecord → StoredRecord)
    (hf : ∀ e, naturalKey (f e) = naturalKey e) (store : List StoredRecord)
    (h : NatKeyUnique store) : NatKeyUnique (store.map f) := by
  unfold NatKeyUnique at h ⊢
  rw [List.pairwise_map]
  exact h.imp fun hab => by simpa [hf] using hab

/-- Every entry of an `updateAt` result shares its key with an original
entry, provided the rewrite preserves keys. -/
theorem updateAt_mem_key (f : StoredRecord → StoredRecord)
    (hf : ∀ e, naturalKey (f e) = naturalKey e) (j : Nat) (l : List StoredRecord)
    (b : StoredRecord) (hb : b ∈ updateAt j f l) :
    ∃ a ∈ l, naturalKey b = naturalKey a := by
  induction l generalizing j with
  | nil => simp [updateAt] at hb
  | cons x xs ih =>
    cases j with
    | zero =>
      rw [show updateAt 0 f (x :: xs) = f x :: xs from rfl] at hb
      rcases List.mem_cons.mp hb with h1 | h2
      · exact ⟨x, List.mem_cons_self x xs, by rw [h1, hf]⟩
      · exact ⟨b, List.mem_cons_of_mem x h2, rfl⟩
    | succ k =>
      rw [show updateAt (k + 1) f (x :: xs) = x :: updateAt k f xs from rfl] at hb
      rcases List.mem_cons.mp hb with h1 | h2
      · exact ⟨x, List.mem_cons_self x xs, by rw [h1]⟩
      · rcases ih k h2 with ⟨a, ha, hk⟩
        exact ⟨a, List.mem_cons_of_mem x ha, hk⟩

/-- A key-preserving rewrite of the entry at one position preserves key
uniqueness. -/
theorem natKeyUnique_updateAt (f : StoredRecord → StoredRecord)
    (hf : ∀ e, naturalKey (f e) = naturalKey e) (j : Nat)
    (store : List StoredRecord) (h : NatKeyUnique store) :
    NatKeyUnique (updateAt j f store) := by
  induction store generalizing j with
  | nil => simpa [updateAt] using h
  | cons x xs ih =>
    unfold NatKeyUnique at h ⊢
    rw [List.pairwise_cons] at h
    cases j with
    | zero =>
      rw [show updateAt 0 f (x :: xs) = f x :: xs from rfl, List.pairwise_cons]
      exact ⟨fun b hb => by rw [hf]; exact h.1 b hb, h.2⟩
    | succ k =>
      rw [show updateAt (k + 1) f (x :: xs) = x :: updateAt k f xs from rfl,
         List.pairwise_cons]
      refine ⟨fun b hb => ?_, ih k h.2⟩
      rcases updateAt_mem_key f hf k xs b hb with ⟨a, ha, hk⟩
      rw [hk]
      exact h.1 a ha

/-- One reconciliation step preserves natural-key uniqueness: the update
branch rewrites no key field, and the insert branch fires only when the
lookup found no entry with the incoming key. -/
theorem natKeyUnique_reconcile (save : Bool) (now : String) (i u : Nat)
    (store : List StoredRecord) (r : Result) (h : NatKeyUnique store) :
    NatKeyUnique (reconcile save now ⟨store, i, u⟩ r).store := by
  unfold reconcile
  by_cases hl : ((store.filter fun e => recMatches r e).length > 0)
  · cases save
    · simpa [hl] using h
    · simpa [hl] using natKeyUnique_map _ (updateStatus_key r now) store h
  · cases save
    · simpa [hl] using h
    · simp only [hl, if_false, if_true]
      unfold NatKeyUnique at h ⊢
      rw [List.pairwise_append]
      refine ⟨h, List.pairwise_singleton _ _, ?_⟩
      intro a ha b hb
      rw [List.mem_singleton] at hb
      subst hb
      have hnm : ¬(recMatches r a = true) := by
        intro hma
        have hmem : a ∈ store.filter fun e => recMatches r e :=
          List.mem_filter.mpr ⟨ha, hma⟩
        exact hl (List.length_pos.mpr (List.ne_nil_of_mem hmem))
      intro hkey
      apply hnm
      rw [recMatches_iff, hkey, serializeResult_key]

/-- The `fill_subject` update touches neither key field. -/
theorem fillSubject_key (info : SubjectInfo) (now : String) (src e : StoredRecord) :
    naturalKey (if entryKeyMatches src e
      then { e with subject_info := some info, modified := now } else e) =
    naturalKey e := by
  split <;> rfl

/-- C2: every operation preserves natural-key uniqueness of the store — the
reconciler (either save mode) inserts only when the triple lookup found no
match and otherwise rewrites no key field; the detail enricher's key-predicate
update and the asset pipeline's update by document position never change any
of the three key fields. -/
theorem C2_natural_key_preserved (save : Bool) (now : String) (i u : Nat)
    (store : List StoredRecord) (r : Result) (info : SubjectInfo)
    (src : StoredRecord) (url pdf txt : String) (j : Nat)
    (h : NatKeyUnique store) :
    NatKeyUnique (reconcile save now ⟨store, i, u⟩ r).store ∧
    NatKeyUnique (fillSubjectStep save now info src store) ∧
    NatKeyUnique (updateAt j (setProvenance url pdf txt now) store) :=
  ⟨natKeyUnique_reconcile save now i u store r h,
   natKeyUnique_map _ (fillSubject_key info now src) store h,
   natKeyUnique_updateAt (setProvenance url pdf txt now) (fun _ => rfl) j store h⟩

/-- A second stored entry with a different natural key. -/
def sex2 : StoredRecord :=
  serializeResult { rex with subject := ⟨"Ley de Datos", ""⟩, num := 2 }
    "2024-02-02 00:00:00"

/-- Witness for C2 on a concrete two-entry store, an insert-triggering
record, a detail update and a provenance update. -/
theorem C2_natural_key_preserved_witness :
    NatKeyUnique (reconcile true "2024-03-03 00:00:00" ⟨[sex, sex2], 0, 0⟩
      { rex with presented_by := ⟨"Diputada Z", ""⟩ }).store ∧
    NatKeyUnique (fillSubjectStep true "2024-03-03 00:00:00"
      ⟨[("Tema", "IA")], some []⟩ sex [sex, sex2]) ∧
    NatKeyUnique (updateAt 0 (setProvenance "u" "a.pdf" "a.txt" "2024-03-03 00:00:00")
      [sex, sex2]) :=
  C2_natural_key_preserved true "2024-03-03 00:00:00" 0 0 [sex, sex2]
    { rex with presented_by := ⟨"Diputada Z", ""⟩ } ⟨[("Tema", "IA")], some []⟩
    sex "u" "a.pdf" "a.txt" 0 (by unfold NatKeyUnique; decide)

/-! ### C3 — the update branch is a pure status/modified frame -/

/-- In a key-unique store, exactly one entry answers the lookup that found a
match. -/
theorem countP_key_eq_one (r : Result) (store : List StoredRecord)
    (h : NatKeyUnique store) (e : StoredRecord) (he : e ∈ store)
    (hm : recMatches r e = true) :
    (store.countP fun x => recMatches r x) = 1 := by
  induction store with
  | nil => cases he
  | cons x xs ih =>
    rw [NatKeyUnique, List.pairwise_cons] at h
    rcases List.mem_cons.mp he with rfl | hexs
    · rw [List.countP_cons_of_pos _ _ (by simpa using hm)]
      have h0 : (xs.countP fun x => recMatches r x) = 0 := by
        rw [List.countP_eq_zero]
        intro b hb hbm
        apply h.1 b hb
        rw [(recMatches_iff r e).mp hm, (recMatches_iff r b).mp (by simpa using hbm)]
      rw [h0]
    · have hx : ¬(recMatches r x = true) := by
        intro hxm
        exact h.1 e hexs
          (((recMatches_iff r x).mp hxm).trans ((recMatches_iff r e).mp hm).symm)
      rw [List.countP_cons_of_neg _ _ (by simpa using hx)]
      exact ih h.2 hexs

/-- C3: reconciling (with saving enabled) a record whose triple matches the
one entry carrying it in a key-unique store leaves exactly one entry for the
triple; that entry is the old one with only `status` and `modified` replaced;
every non-matching entry survives unchanged; and the store does not grow. -/
theorem C3_update_frame (now : String) (i u : Nat) (store : List StoredRecord)
    (r : Result) (e : StoredRecord) (h : NatKeyUnique store) (he : e ∈ store)
    (hm : recMatches r e = true) :
    ((reconcile true now ⟨store, i, u⟩ r).store.countP fun x => recMatches r x) = 1 ∧
    { e with status := r.status, modified := now } ∈
      (reconcile true now ⟨store, i, u⟩ r).store ∧
    (∀ x ∈ store, recMatches r x = false →
      x ∈ (reconcile true now ⟨store, i, u⟩ r).store) ∧
    (reconcile true now ⟨store, i, u⟩ r).store.length = store.length := by
  have hpos : 0 < (store.filter fun x => recMatches r x).length :=
    List.length_pos.mpr (List.ne_nil_of_mem (List.mem_filter.mpr ⟨he, hm⟩))
  have hst : (reconcile true now ⟨store, i, u⟩ r).store =
      store.map (updateStatus r now) := by
    unfold reconcile
    simp [hpos]
  rw [hst]
  refine ⟨?_, ?_, ?_, by simp⟩
  · rw [List.countP_map]
    have hcomp : ((fun x => recMatches r x) ∘ updateStatus r now) =
        fun x => recMatches r x := by
      funext x
      exact recMatches_updateStatus r r now x
    rw [hcomp]
    exact countP_key_eq_one r store h e he hm
  · have hmm := List.mem_map_of_mem (updateStatus r now) he
    simpa [updateStatus, hm] using hmm
  · intro x hx hxm
    have hmm := List.mem_map_of_mem (updateStatus r now) hx
    simpa [updateStatus, hxm] using hmm

/-- The same initiative observed again with a fresh status. -/
def rexAgain : Result := { rex with status := ⟨"Aprobada", "" ⟩ }

/-- Witness for C3: re-reconciling `rexAgain` against the two-entry store
keeps one entry for the triple, rewrites only its status and stamp, and keeps
the unrelated entry. -/
theorem C3_update_frame_witness :
    (((reconcile true "2025-02-02 00:00:00" ⟨[sex, sex2], 0, 0⟩ rexAgain).store.countP
      fun x => recMatches rexAgain x) = 1) ∧
    { sex with status := rexAgain.status, modified := "2025-02-02 00:00:00" } ∈
      (reconcile true "2025-02-02 00:00:00" ⟨[sex, sex2], 0, 0⟩ rexAgain).store ∧
    (∀ x ∈ [sex, sex2], recMatches rexAgain x = false →
      x ∈ (reconcile true "2025-02-02 00:00:00" ⟨[sex, sex2], 0, 0⟩ rexAgain).store) ∧
    (reconcile true "2025-02-02 00:00:00" ⟨[sex, sex2], 0, 0⟩ rexAgain).store.length =
      ([sex, sex2] : List StoredRecord).length :=
  C3_update_frame "2025-02-02 00:00:00" 0 0 [sex, sex2] rexAgain sex
    (by unfold NatKeyUnique; decide) (by decide) (by decide)

/-! ### C7 — re-running the asset pipeline on existing files -/

/-- C7 fails on the code as claimed: with both destination files already on
disk, the iteration still performs the `requests.get` — the call sits before
the existence check — so one network request is issued, not zero. -/
theorem C7_counterexample :
    downloadStep "pdfs" [pdfPath "pdfs" sexEnriched, textPath "pdfs" sexEnriched]
        "2025-03-03 00:00:00" [sexEnriched] 0 sexEnriched =
      .ok ([DlEvent.netGet "/portal/doc.pdf", DlEvent.dbUpdate 0],
        [pdfPath "pdfs" sexEnriched, textPath "pdfs" sexEnriched],
        [setProvenance "/portal/doc.pdf" (pdfPath "pdfs" sexEnriched)
          (textPath "pdfs" sexEnriched) "2025-03-03 00:00:00" sexEnriched]) ∧
    countNet [DlEvent.netGet "/portal/doc.pdf", DlEvent.dbUpdate 0] = 1 := by
  constructor <;> rfl

/-- C7 (amended): for an eligible record whose PDF and text paths both exist,
the iteration performs exactly the unconditional HTTP GET of the asset URL and
the provenance update — no file write, no OCR — and the stored entry's
`pdf_url`, `pdf_filename`, `text_filename` and `modified` are refreshed by
document position while the filesystem is untouched. -/
theorem C7_skip_if_exists (dir now : String) (fs : List String)
    (store : List StoredRecord) (i : Nat) (e : StoredRecord) (si : SubjectInfo)
    (ls : List String) (h1 : e.subject_info = some si) (h2 : si.links = some ls)
    (h3 : ls ≠ []) (h4 : pdfPath dir e ∈ fs) (h5 : textPath dir e ∈ fs) :
    downloadStep dir fs now store i e =
      .ok ([DlEvent.netGet (ls.headD ""), DlEvent.dbUpdate i], fs,
        updateAt i
          (setProvenance (ls.headD "") (pdfPath dir e) (textPath dir e) now)
          store) := by
  have hlen : 0 < ls.length := List.length_pos.mpr h3
  simp [downloadStep, h1, h2, SubjectInfo.truthy, hlen, h4, h5]

/-- Witness for C7 at the concrete enriched entry with both files present. -/
theorem C7_skip_if_exists_witness :
    downloadStep "pdfs" [pdfPath "pdfs" sexEnriched, textPath "pdfs" sexEnriched]
        "2025-04-04 00:00:00" [sexEnriched] 0 sexEnriched =
      .ok ([DlEvent.netGet ((["/portal/doc.pdf"] : List String).headD ""),
            DlEvent.dbUpdate 0],
        [pdfPath "pdfs" sexEnriched, textPath "pdfs" sexEnriched],
        updateAt 0
          (setProvenance ((["/portal/doc.pdf"] : List String).headD "")
            (pdfPath "pdfs" sexEnriched) (textPath "pdfs" sexEnriched)
            "2025-04-04 00:00:00")
          [sexEnriched]) :=
  C7_skip_if_exists "pdfs" "2025-04-04 00:00:00"
    [pdfPath "pdfs" sexEnriched, textPath "pdfs" sexEnriched] [sexEnriched] 0
    sexEnriched ⟨[("Tema", "IA")], some ["/portal/doc.pdf"]⟩ ["/portal/doc.pdf"]
    rfl rfl (by decide) (by simp) (by simp)

/-! ### C9 — defensive handling of optional fields -/

/-- An entry whose `subject_info` is a non-empty mapping without a `links`
key. -/
def sexNoLinks : StoredRecord :=
  { sex with subject_info := some ⟨[("Tema", "IA")], none⟩ }

/-- C9 fails on the code as claimed: an entry whose `subject_info` is present
(non-empty) but lacks the `links` key makes both the list command and the
asset command subscript the missing key — a `KeyError`, not a silent skip. -/
theorem C9_counterexample :
    listRecordsStep sexNoLinks = .error (.keyError "links") ∧
    downloadStep "pdfs" [] "2025-03-03 00:00:00" [sexNoLinks] 0 sexNoLinks =
      .error (.keyError "links") := by
  constructor <;> rfl

/-- C9 (amended): an entry with `subject_info` absent — or equal to the empty
mapping, which Python treats as falsy — is handled defensively by both
commands: no error and nothing to fetch; but a non-empty `subject_info`
lacking the `links` key raises `KeyError` in both. -/
theorem C9_defensive_optional_fields (dir now : String) (fs : List String)
    (store : List StoredRecord) (i : Nat) (e e2 : StoredRecord)
    (h : e.subject_info = none ∨ e.subject_info = some ⟨[], none⟩)
    (si2 : SubjectInfo) (h2 : e2.subject_info = some si2)
    (h3 : si2.truthy = true) (h4 : si2.links = none) :
    (listRecordsStep e = .ok ("No info for subject", "No info for subject") ∧
     downloadStep dir fs now store i e = .ok ([], fs, store)) ∧
    (listRecordsStep e2 = .error (.keyError "links") ∧
     downloadStep dir fs now store i e2 = .error (.keyError "links")) := by
  refine ⟨⟨?_, ?_⟩, ?_, ?_⟩
  · rcases h with h | h
    · simp [listRecordsStep, h]
    · simp [listRecordsStep, h, SubjectInfo.truthy]
  · rcases h with h | h
    · simp [downloadStep, h]
    · simp [downloadStep, h, SubjectInfo.truthy]
  · simp [listRecordsStep, h2, h3, h4]
  · simp [downloadStep, h2, h3, h4]

/-- Witness for C9: the freshly inserted entry (no `subject_info`) passes both
commands; the keyless-links entry errors in both. -/
theorem C9_defensive_optional_fields_witness :
    (listRecordsStep sex = .ok ("No info for subject", "No info for subject") ∧
     downloadStep "pdfs" [] "2025-05-05 00:00:00" [sex] 0 sex = .ok ([], [], [sex])) ∧
    (listRecordsStep sexNoLinks = .error (.keyError "links") ∧
     downloadStep "pdfs" [] "2025-05-05 00:00:00" [sex] 0 sexNoLinks =
       .error (.keyError "links")) :=
  C9_defensive_optional_fields "pdfs" "2025-05-05 00:00:00" [] [sex] 0 sex
    sexNoLinks (Or.inl rfl) ⟨[("Tema", "IA")], none⟩ rfl (by decide) rfl
